import Mathlib

/-!
Verification of the stream-state projection of the somnia-stream-app client.

The only non-trivial logic in the repository is the client-side re-derivation
of a payment stream's state (progress percentage, effective active flag,
withdrawable amount) from an on-chain record and the current time.  Two
revisions of this projection exist in the source:

* `shapeStream` in `src/SomniaStreamApp.tsx` (lines 952-1028), the adopted
  later revision, embedded here as `shapeStream`;
* `shapeStream` in `src/SomniaStreamApp - Copie.tsx` (lines 519-639), the
  earlier revision, embedded here as `shapeStreamCopie` together with its
  stop-time normalization `normalizeStopTime`.

Amounts are integers in the token's smallest unit (the source uses
`ethers.BigNumber`), times are integer unix seconds (the source converts them
with `Number(...)`), and the progress percentage — a JS floating-point value in
the source — is modelled as an exact rational.
-/

/-- The on-chain stream record as read by both revisions (the tuple returned
by `getStream`, fields not used by the projection arithmetic omitted). -/
structure StreamRaw where
  deposit : Int
  ratePerSecond : Int
  startTime : Int
  stopTime : Int
  totalWithdrawn : Int
  isPaused : Bool
  pausedTime : Int
  isActive : Bool
deriving Repr, DecidableEq

/-- The derived view: the fields of the returned `StreamInfo` that carry the
projection's arithmetic results (`progress`, `withdrawable`, `isActive`, and
the `stopTime` echoed back to the UI). -/
structure StreamView where
  progress : Rat
  withdrawable : Int
  isActive : Bool
  stopTime : Int
deriving Repr, DecidableEq

/-- JS `Math.max` on two rationals, as used by the source to clamp from
below; written with an explicit comparison so that evaluation is by
computation. -/
def jsMax (a b : Rat) : Rat := if a ≤ b then b else a

/-- JS `Math.min` on two rationals, as used by the source to clamp from
above. -/
def jsMin (a b : Rat) : Rat := if a ≤ b then a else b

/-- JS `Math.min` on two integer-valued numbers (the earlier revision applies
it to seconds). -/
def jsMinInt (a b : Int) : Int := if a ≤ b then a else b

/-- Arithmetic core of the adopted `shapeStream` (`SomniaStreamApp.tsx`,
lines 962-1007).  The branch priority is Finished, then Paused, then
Scheduled, then Running; afterwards progress is clamped to [0,100] and a
negative withdrawable is replaced by 0.  The tuple holds
(actualProgress, calculatedIsActive, calculatedWithdrawable). -/
def shapeStream (s : StreamRaw) (now : Int) : StreamView :=
  let startTime := s.startTime
  let stopTime := s.stopTime
  let totalDuration : Int := if stopTime > startTime then stopTime - startTime else 0
  let core : Rat × Bool × Int :=
    if s.isActive = false ∨ (now ≥ stopTime ∧ startTime > 0) ∨ s.totalWithdrawn ≥ s.deposit then
      ((100 : Rat), false, s.deposit - s.totalWithdrawn)
    else if s.isPaused then
      let activeTimeUntilPause := s.pausedTime - startTime
      let p : Rat :=
        if totalDuration > 0 ∧ activeTimeUntilPause > 0 then
          ((activeTimeUntilPause : Rat) / (totalDuration : Rat)) * 100
        else 0
      let activeTokensUntilPause :=
        s.ratePerSecond * (if activeTimeUntilPause > 0 then activeTimeUntilPause else 0)
      (p, s.isActive, activeTokensUntilPause - s.totalWithdrawn)
    else if now < startTime then
      ((0 : Rat), s.isActive, (0 : Int))
    else
      let elapsedTime := now - startTime
      let p : Rat :=
        if totalDuration > 0 then ((elapsedTime : Rat) / (totalDuration : Rat)) * 100
        else 0
      let elapsedTokens := s.ratePerSecond * elapsedTime
      let actualElapsedTokens := if elapsedTokens > s.deposit then s.deposit else elapsedTokens
      (p, s.isActive, actualElapsedTokens - s.totalWithdrawn)
  { progress := jsMin 100 (jsMax 0 core.1)
    withdrawable := if core.2.2 < 0 then 0 else core.2.2
    isActive := core.2.1
    stopTime := stopTime }

/-- Guard at the head of the adopted `shapeStream` (line 960): a record with
`startTime = 0` and zero deposit is treated as nonexistent and `null` is
returned; otherwise the projection runs. -/
def shapeStreamChecked (s : StreamRaw) (now : Int) : Option StreamView :=
  if s.startTime = 0 ∧ s.deposit = 0 then none else some (shapeStream s now)

/-- Stop-time normalization of the earlier revision
(`SomniaStreamApp - Copie.tsx`, lines 544-552): an invalid `stopTime` (zero or
not after `startTime`) is recomputed as `startTime` plus the duration
`deposit / ratePerSecond` (BigNumber division, truncating), with a one-hour
default when the rate is zero. -/
def normalizeStopTime (s : StreamRaw) : Int :=
  if s.stopTime ≤ s.startTime ∨ s.stopTime = 0 then
    if s.ratePerSecond ≠ 0 then s.startTime + Int.tdiv s.deposit s.ratePerSecond
    else s.startTime + 3600
  else s.stopTime

/-- Reconciliation threshold of the earlier revision:
`parseUnitsSafe("0.01", dec)`, i.e. 0.01 token in smallest units
(`10 ^ dec / 100`; for the default `dec = 18` this is `10 ^ 16`). -/
def pointZeroOneUnits (dec : Nat) : Int := 10 ^ dec / 100

/-- Arithmetic core of the earlier revision's `shapeStream`
(`SomniaStreamApp - Copie.tsx`, lines 537-637).  `c` is the contract-reported
withdrawable amount fetched alongside the record (zero when no signer is
available) and `dec` the token decimals.  The locally calculated pair
(actualProgress, calculatedWithdrawable) starts at (0, 0), is filled in only
when `ratePerSecond ≠ 0` and `startTime > 0`, and a paused record overrides
the time-based result; finally `c` is reconciled against the calculated
amount. -/
def shapeStreamCopie (s : StreamRaw) (now : Int) (c : Int) (dec : Nat) : StreamView :=
  let startTime := s.startTime
  let stopTime := normalizeStopTime s
  let core : Rat × Int :=
    if s.ratePerSecond ≠ 0 ∧ startTime > 0 then
      let base : Rat × Int :=
        if now ≤ startTime then ((0 : Rat), (0 : Int))
        else if now ≥ stopTime then
          let cw := s.deposit - s.totalWithdrawn
          ((100 : Rat), if cw < 0 then 0 else cw)
        else
          let elapsedTime := now - startTime
          let totalDuration := stopTime - startTime
          let p : Rat := jsMin 100 (((elapsedTime : Rat) / (totalDuration : Rat)) * 100)
          let elapsedTokens := s.ratePerSecond * elapsedTime
          let actualElapsedTokens := if elapsedTokens > s.deposit then s.deposit else elapsedTokens
          let cw := actualElapsedTokens - s.totalWithdrawn
          (p, if cw < 0 then 0 else cw)
      if s.isPaused ∧ s.pausedTime > 0 then
        let activeTime := jsMinInt (s.pausedTime - startTime) (stopTime - startTime)
        if activeTime > 0 then
          let p : Rat := jsMin 100 (((activeTime : Rat) / ((stopTime - startTime : Int) : Rat)) * 100)
          let cw := s.ratePerSecond * activeTime - s.totalWithdrawn
          (p, if cw < 0 then 0 else cw)
        else base
      else base
    else ((0 : Rat), (0 : Int))
  let finalWithdrawable : Int :=
    if c = s.deposit ∧ s.totalWithdrawn = 0 ∧ now < stopTime then core.2
    else if c > core.2 + pointZeroOneUnits dec then core.2
    else c
  { progress := core.1
    withdrawable := finalWithdrawable
    isActive := s.isActive
    stopTime := stopTime }

/-- The record of spec scenarios 1-3: a running one-hour stream. -/
def scenarioRecord : StreamRaw :=
  { deposit := 3600, ratePerSecond := 1, startTime := 1000, stopTime := 4600
    totalWithdrawn := 0, isPaused := false, pausedTime := 0, isActive := true }

/-- Scenario 4 record: the scenario record paused at time 2000. -/
def pausedScenarioRecord : StreamRaw :=
  { deposit := 3600, ratePerSecond := 1, startTime := 1000, stopTime := 4600
    totalWithdrawn := 0, isPaused := true, pausedTime := 2000, isActive := true }

/-- A paused record whose pause timestamp lies beyond `stopTime`. -/
def pausedBeyondStopRecord : StreamRaw :=
  { deposit := 3600, ratePerSecond := 1, startTime := 1000, stopTime := 4600
    totalWithdrawn := 0, isPaused := true, pausedTime := 6000, isActive := true }

/-- A paused record whose uncapped accrual exceeds the deposit: rate 10 over
900 paused-active seconds accrues 9000 against a deposit of 100. -/
def overAccrualRecord : StreamRaw :=
  { deposit := 100, ratePerSecond := 10, startTime := 1000, stopTime := 2000
    totalWithdrawn := 0, isPaused := true, pausedTime := 1900, isActive := true }

/-- Scenario 5 record: an invalid `stopTime` of 0 with rate 2 and deposit
100. -/
def invalidStopRecord : StreamRaw :=
  { deposit := 100, ratePerSecond := 2, startTime := 500, stopTime := 0
    totalWithdrawn := 0, isPaused := false, pausedTime := 0, isActive := true }

/-- A contract-deactivated record whose stream window has not yet opened. -/
def inactiveScheduledRecord : StreamRaw :=
  { deposit := 100, ratePerSecond := 1, startTime := 1000, stopTime := 2000
    totalWithdrawn := 0, isPaused := false, pausedTime := 0, isActive := false }

/-- A record paused before its own start, so the active-until-pause time is
negative. -/
def pausedBeforeStartRecord : StreamRaw :=
  { deposit := 100, ratePerSecond := 1, startTime := 1000, stopTime := 2000
    totalWithdrawn := 0, isPaused := true, pausedTime := 500, isActive := true }

/-- A fully-drained record: more already withdrawn than was deposited. -/
def drainedRecord : StreamRaw :=
  { deposit := 100, ratePerSecond := 1, startTime := 10, stopTime := 20
    totalWithdrawn := 150, isPaused := false, pausedTime := 0, isActive := true }

/-- A malformed record with a negative deposit, reported inactive by the
contract. -/
def negativeDepositRecord : StreamRaw :=
  { deposit := -5, ratePerSecond := 1, startTime := 1000, stopTime := 2000
    totalWithdrawn := 0, isPaused := false, pausedTime := 0, isActive := false }

/-- A record on which the Paused tie-breaks of the two revisions disagree:
the pause timestamp 3000 lies beyond `stopTime` 2000, which the earlier
revision caps at the total duration and the adopted one does not. -/
def pausedDivergeRecord : StreamRaw :=
  { deposit := 10000, ratePerSecond := 1, startTime := 1000, stopTime := 2000
    totalWithdrawn := 0, isPaused := true, pausedTime := 3000, isActive := true }

/-- C7: on the scenario record (deposit 3600, rate 1, start 1000, stop 4600,
nothing withdrawn, active, not paused), the adopted projection returns
progress 0 and withdrawable 0 at now = 1000, progress 50 and withdrawable
1800 at now = 2800, and progress 100 and withdrawable 3600 at now = 5000. -/
theorem scenario_record_projections :
    (shapeStream scenarioRecord 1000).progress = 0 ∧
    (shapeStream scenarioRecord 1000).withdrawable = 0 ∧
    (shapeStream scenarioRecord 2800).progress = 50 ∧
    (shapeStream scenarioRecord 2800).withdrawable = 1800 ∧
    (shapeStream scenarioRecord 5000).progress = 100 ∧
    (shapeStream scenarioRecord 5000).withdrawable = 3600 := by
  norm_num [shapeStream, scenarioRecord, jsMin, jsMax]

/-! ### Helper lemmas -/

theorem jsMin_eq_min (a b : Rat) : jsMin a b = min a b := (min_def a b).symm

theorem jsMax_eq_max (a b : Rat) : jsMax a b = max a b := (max_def a b).symm

theorem jsMinInt_eq_min (a b : Int) : jsMinInt a b = min a b := (min_def a b).symm

theorem intClampNonneg (x : Int) : 0 ≤ if x < 0 then 0 else x := by
  split_ifs <;> omega

theorem intClampLe (x w d : Int) (h : x ≤ d) :
    (if x - w < 0 then 0 else x - w) ≤ max 0 (d - w) := by
  split_ifs <;> omega

theorem jsClampZero : jsMin 100 (jsMax 0 (0 : Rat)) = 0 := by
  norm_num [jsMin, jsMax]

theorem jsClampHundred : jsMin 100 (jsMax 0 (100 : Rat)) = 100 := by
  norm_num [jsMin, jsMax]

/-! ### Claim theorems -/

/-- C4: every record with `totalWithdrawn ≥ deposit` is classified Finished by
the adopted projection: the effective active flag is false, progress is 100,
and the withdrawable amount is `max 0 (deposit - totalWithdrawn)`. -/
theorem finished_when_fully_withdrawn (s : StreamRaw) (now : Int)
    (h : s.totalWithdrawn ≥ s.deposit) :
    (shapeStream s now).isActive = false ∧
    (shapeStream s now).progress = 100 ∧
    (shapeStream s now).withdrawable = max 0 (s.deposit - s.totalWithdrawn) := by
  have hc : s.isActive = false ∨ (now ≥ s.stopTime ∧ s.startTime > 0) ∨
      s.totalWithdrawn ≥ s.deposit := Or.inr (Or.inr h)
  simp only [shapeStream, if_pos hc]
  refine ⟨trivial, jsClampHundred, ?_⟩
  split_ifs <;> omega

/-- Witness for C4: the fully drained record (deposit 100, withdrawn 150) at
time 5. -/
theorem finished_when_fully_withdrawn_witness :
    (shapeStream drainedRecord 5).isActive = false ∧
    (shapeStream drainedRecord 5).progress = 100 ∧
    (shapeStream drainedRecord 5).withdrawable =
      max 0 (drainedRecord.deposit - drainedRecord.totalWithdrawn) :=
  finished_when_fully_withdrawn drainedRecord 5 (by decide)

/-- C3 counterexample: a contract-deactivated record observed before its
start time is classified Finished, not Scheduled: the adopted projection
returns progress 100 and withdrawable 100, not zeroes. -/
theorem scheduled_inactive_counterexample :
    (shapeStream inactiveScheduledRecord 0).progress = 100 ∧
    (shapeStream inactiveScheduledRecord 0).withdrawable = 100 ∧
    ¬((shapeStream inactiveScheduledRecord 0).progress = 0 ∧
      (shapeStream inactiveScheduledRecord 0).withdrawable = 0) := by
  norm_num [shapeStream, inactiveScheduledRecord, jsMin, jsMax]

/-- C3 amended: a record observed before its start time yields progress 0 and
withdrawable 0, provided it is not caught first by the Finished branch
(contract-active, window not elapsed, not fully withdrawn) or by the Paused
branch. -/
theorem scheduled_zero_amended (s : StreamRaw) (now : Int)
    (hA : s.isActive = true)
    (hT : ¬(now ≥ s.stopTime ∧ s.startTime > 0))
    (hW : s.totalWithdrawn < s.deposit)
    (hP : s.isPaused = false)
    (hS : now < s.startTime) :
    (shapeStream s now).progress = 0 ∧ (shapeStream s now).withdrawable = 0 := by
  have hc : ¬(s.isActive = false ∨ (now ≥ s.stopTime ∧ s.startTime > 0) ∨
      s.totalWithdrawn ≥ s.deposit) := by
    rintro (h | h | h)
    · simp [hA] at h
    · exact hT h
    · omega
  simp only [shapeStream, if_neg hc, hP, Bool.false_eq_true, if_false, if_pos hS]
  refine ⟨jsClampZero, ?_⟩
  norm_num

/-- Witness for C3 amended: the scenario record at time 500, before its start
time 1000. -/
theorem scheduled_zero_amended_witness :
    (shapeStream scenarioRecord 500).progress = 0 ∧
    (shapeStream scenarioRecord 500).withdrawable = 0 :=
  scheduled_zero_amended scenarioRecord 500 (by decide) (by decide) (by decide)
    (by decide) (by decide)

/-- C10: a record that escapes the Finished branch and is paused with
`pausedTime ≤ startTime` has non-positive active-until-pause time; the
adopted projection treats it as zero and returns progress 0 and withdrawable
0 (given the on-chain invariant `totalWithdrawn ≥ 0`). -/
theorem paused_before_start_zero (s : StreamRaw) (now : Int)
    (hA : s.isActive = true)
    (hT : ¬(now ≥ s.stopTime ∧ s.startTime > 0))
    (hW : s.totalWithdrawn < s.deposit)
    (hP : s.isPaused = true)
    (hpt : s.pausedTime ≤ s.startTime)
    (hw0 : 0 ≤ s.totalWithdrawn) :
    (shapeStream s now).progress = 0 ∧ (shapeStream s now).withdrawable = 0 := by
  have hc : ¬(s.isActive = false ∨ (now ≥ s.stopTime ∧ s.startTime > 0) ∨
      s.totalWithdrawn ≥ s.deposit) := by
    rintro (h | h | h)
    · simp [hA] at h
    · exact hT h
    · omega
  have ha : ¬(s.pausedTime - s.startTime > 0) := by omega
  simp only [shapeStream, if_neg hc, hP, if_true,
    if_neg (show ¬((if s.stopTime > s.startTime then s.stopTime - s.startTime else 0) > 0 ∧
      s.pausedTime - s.startTime > 0) from fun hx => ha hx.2),
    if_neg ha, mul_zero]
  refine ⟨jsClampZero, ?_⟩
  split_ifs <;> omega

/-- Witness for C10: a record paused at 500, before its start time 1000,
observed at time 1500. -/
theorem paused_before_start_zero_witness :
    (shapeStream pausedBeforeStartRecord 1500).progress = 0 ∧
    (shapeStream pausedBeforeStartRecord 1500).withdrawable = 0 :=
  paused_before_start_zero pausedBeforeStartRecord 1500 (by decide) (by decide)
    (by decide) (by decide) (by decide) (by decide)

theorem jsClampOfNonneg (x : Rat) (hx : 0 ≤ x) : jsMin 100 (jsMax 0 x) = min 100 x := by
  rw [jsMin_eq_min, jsMax_eq_max, max_eq_right hx]

/-- C1 counterexample: on a paused record with rate 10 and 900 active seconds
before the pause, the adopted projection reports 9000 withdrawable against a
deposit of 100 with nothing withdrawn — the accrual of the Paused branch is
not capped at the deposit, so the claimed bound fails. -/
theorem paused_overaccrual_counterexample :
    (shapeStream overAccrualRecord 1500).withdrawable = 9000 ∧
    overAccrualRecord.deposit - overAccrualRecord.totalWithdrawn = 100 ∧
    ¬((shapeStream overAccrualRecord 1500).withdrawable ≤
      overAccrualRecord.deposit - overAccrualRecord.totalWithdrawn) := by
  norm_num [shapeStream, overAccrualRecord, jsMin, jsMax]

/-- C1 amended: the withdrawable amount is always non-negative; and it is
bounded by `max 0 (deposit - totalWithdrawn)` provided that, whenever the
Paused branch applies (the record escapes the Finished condition and is
paused), its uncapped accrual
`ratePerSecond * max (pausedTime - startTime) 0` does not exceed the deposit
(in the Finished, Scheduled and Running branches the bound needs no side
condition, the Running accrual being capped at the deposit). -/
theorem withdrawable_bounds_amended (s : StreamRaw) (now : Int) :
    0 ≤ (shapeStream s now).withdrawable ∧
    ((¬(s.isActive = false ∨ (now ≥ s.stopTime ∧ s.startTime > 0) ∨
        s.totalWithdrawn ≥ s.deposit) → s.isPaused = true →
      s.ratePerSecond * max (s.pausedTime - s.startTime) 0 ≤ s.deposit) →
      (shapeStream s now).withdrawable ≤ max 0 (s.deposit - s.totalWithdrawn)) := by
  simp only [shapeStream]
  constructor
  · exact intClampNonneg _
  · intro hcap
    by_cases h1 : s.isActive = false ∨ (now ≥ s.stopTime ∧ s.startTime > 0) ∨
        s.totalWithdrawn ≥ s.deposit
    · simp only [if_pos h1]
      exact intClampLe _ _ _ le_rfl
    · simp only [if_neg h1]
      by_cases h2 : s.isPaused = true
      · simp only [if_pos h2]
        have hx : s.ratePerSecond *
            (if s.pausedTime - s.startTime > 0 then s.pausedTime - s.startTime else 0) ≤
            s.deposit := by
          have hcap2 := hcap h1 h2
          rcases le_or_lt (s.pausedTime - s.startTime) 0 with h | h
          · rw [if_neg (by omega), max_eq_right h] at *
            simpa using hcap2
          · rwa [if_pos h, ← max_eq_left (le_of_lt h)]
        exact intClampLe _ _ _ hx
      · simp only [if_neg h2]
        by_cases h3 : now < s.startTime
        · simp only [if_pos h3]
          split_ifs <;> omega
        · simp only [if_neg h3]
          have hx : (if s.ratePerSecond * (now - s.startTime) > s.deposit then s.deposit
              else s.ratePerSecond * (now - s.startTime)) ≤ s.deposit := by
            split_ifs with h4
            · exact le_rfl
            · omega
          exact intClampLe _ _ _ hx

/-- Witness for C1 amended: the paused scenario record at time 2800, whose
Paused-branch accrual 1000 is below the deposit 3600. -/
theorem withdrawable_bounds_amended_witness :
    0 ≤ (shapeStream pausedScenarioRecord 2800).withdrawable ∧
    (shapeStream pausedScenarioRecord 2800).withdrawable ≤
      max 0 (pausedScenarioRecord.deposit - pausedScenarioRecord.totalWithdrawn) := by
  obtain ⟨h0, hb⟩ := withdrawable_bounds_amended pausedScenarioRecord 2800
  exact ⟨h0, hb (fun _ _ => by norm_num [pausedScenarioRecord, max_def])⟩

/-- C5 counterexample: on the scenario-4 record the paused progress is the
exact rational 250/9 = 27.777..., not 27.78, and on a record paused beyond
its stop time the returned progress is the clamped 100, not the raw formula
value 5000/3600*100. -/
theorem paused_progress_counterexample :
    (shapeStream pausedScenarioRecord 2800).progress = 250 / 9 ∧
    (250 : Rat) / 9 ≠ 2778 / 100 ∧
    (shapeStream pausedScenarioRecord 2800).withdrawable = 1000 ∧
    (shapeStream pausedBeyondStopRecord 2800).progress = 100 ∧
    (100 : Rat) ≠ (5000 : Rat) / 3600 * 100 := by
  norm_num [shapeStream, pausedScenarioRecord, pausedBeyondStopRecord, jsMin, jsMax]

/-- C5 amended: for a paused record that escapes the Finished branch, the
adopted projection computes `activeTimeUntilPause = pausedTime - startTime`
and returns progress `min 100 (activeTimeUntilPause / totalDuration * 100)`
when the duration and the active time are positive (0 otherwise, and the
clamp at 100 bites when `pausedTime > stopTime`), and withdrawable
`max 0 (ratePerSecond * max activeTimeUntilPause 0 - totalWithdrawn)`; on
the scenario-4 record this gives progress 250/9 ≈ 27.78 and withdrawable
1000. -/
theorem paused_branch_amended (s : StreamRaw) (now : Int)
    (hA : s.isActive = true)
    (hT : ¬(now ≥ s.stopTime ∧ s.startTime > 0))
    (hW : s.totalWithdrawn < s.deposit)
    (hP : s.isPaused = true) :
    (shapeStream s now).progress =
      (if s.stopTime - s.startTime > 0 ∧ s.pausedTime - s.startTime > 0 then
        min 100 (((s.pausedTime - s.startTime : Int) : Rat) /
          ((s.stopTime - s.startTime : Int) : Rat) * 100)
      else 0) ∧
    (shapeStream s now).withdrawable =
      max 0 (s.ratePerSecond * max (s.pausedTime - s.startTime) 0 -
        s.totalWithdrawn) := by
  have hc : ¬(s.isActive = false ∨ (now ≥ s.stopTime ∧ s.startTime > 0) ∨
      s.totalWithdrawn ≥ s.deposit) := by
    rintro (h | h | h)
    · simp [hA] at h
    · exact hT h
    · omega
  simp only [shapeStream, if_neg hc, hP, if_true]
  constructor
  · by_cases hss : s.stopTime > s.startTime
    · simp only [if_pos hss]
      by_cases hcond : s.stopTime - s.startTime > 0 ∧ s.pausedTime - s.startTime > 0
      · simp only [if_pos hcond]
        have hx : (0 : Rat) ≤ ((s.pausedTime - s.startTime : Int) : Rat) /
            ((s.stopTime - s.startTime : Int) : Rat) * 100 := by
          have h1 : (0 : Rat) ≤ ((s.pausedTime - s.startTime : Int) : Rat) := by
            exact_mod_cast le_of_lt hcond.2
          have h2 : (0 : Rat) ≤ ((s.stopTime - s.startTime : Int) : Rat) := by
            exact_mod_cast le_of_lt hcond.1
          have := div_nonneg h1 h2
          linarith
        exact jsClampOfNonneg _ hx
      · simp only [if_neg hcond]
        exact jsClampZero
    · simp only [if_neg hss]
      have hout : ¬(s.stopTime - s.startTime > 0 ∧ s.pausedTime - s.startTime > 0) := by
        intro h
        omega
      have hin : ¬((0 : Int) > 0 ∧ s.pausedTime - s.startTime > 0) := by
        intro h
        omega
      simp only [if_neg hout, if_neg hin]
      exact jsClampZero
  · have hm : (if s.pausedTime - s.startTime > 0 then s.pausedTime - s.startTime else 0) =
        max (s.pausedTime - s.startTime) 0 := by
      rcases le_or_lt (s.pausedTime - s.startTime) 0 with h | h
      · rw [if_neg (by omega), max_eq_right h]
      · rw [if_pos h, max_eq_left (le_of_lt h)]
    rw [hm]
    generalize s.ratePerSecond * max (s.pausedTime - s.startTime) 0 = X
    split_ifs <;> omega

/-- Witness for C5 amended: the scenario-4 record at time 2800. -/
theorem paused_branch_amended_witness :
    (shapeStream pausedScenarioRecord 2800).progress =
      (if pausedScenarioRecord.stopTime - pausedScenarioRecord.startTime > 0 ∧
          pausedScenarioRecord.pausedTime - pausedScenarioRecord.startTime > 0 then
        min 100 (((pausedScenarioRecord.pausedTime - pausedScenarioRecord.startTime : Int) : Rat) /
          ((pausedScenarioRecord.stopTime - pausedScenarioRecord.startTime : Int) : Rat) * 100)
      else 0) ∧
    (shapeStream pausedScenarioRecord 2800).withdrawable =
      max 0 (pausedScenarioRecord.ratePerSecond *
        max (pausedScenarioRecord.pausedTime - pausedScenarioRecord.startTime) 0 -
        pausedScenarioRecord.totalWithdrawn) :=
  paused_branch_amended pausedScenarioRecord 2800 (by decide) (by decide) (by decide)
    (by decide)

theorem jsClampRange (p : Rat) :
    0 ≤ jsMin 100 (jsMax 0 p) ∧ jsMin 100 (jsMax 0 p) ≤ 100 := by
  unfold jsMin jsMax
  split_ifs <;> constructor <;> linarith

/-- C6: for a record classified Running (contract-active, not paused, window
open, not fully withdrawn, with the on-chain invariant `ratePerSecond ≥ 0`)
at both `now` and `now + 1`, the withdrawable amount computed by the adopted
projection does not decrease from `now` to `now + 1`. -/
theorem running_withdrawable_monotone (s : StreamRaw) (now : Int)
    (hA : s.isActive = true) (hP : s.isPaused = false)
    (hW : s.totalWithdrawn < s.deposit) (hr : 0 ≤ s.ratePerSecond)
    (h1 : s.startTime ≤ now) (h2 : now + 1 < s.stopTime) :
    (shapeStream s now).withdrawable ≤ (shapeStream s (now + 1)).withdrawable := by
  have hc : ∀ t : Int, t < s.stopTime →
      ¬(s.isActive = false ∨ (t ≥ s.stopTime ∧ s.startTime > 0) ∨
        s.totalWithdrawn ≥ s.deposit) := by
    intro t ht
    rintro (h | h | h)
    · simp [hA] at h
    · omega
    · omega
  have hmul : s.ratePerSecond * (now - s.startTime) ≤
      s.ratePerSecond * (now + 1 - s.startTime) :=
    mul_le_mul_of_nonneg_left (by omega) hr
  simp only [shapeStream, if_neg (hc now (by omega)), if_neg (hc (now + 1) h2), hP,
    Bool.false_eq_true, if_false, if_neg (show ¬now < s.startTime by omega),
    if_neg (show ¬now + 1 < s.startTime by omega)]
  generalize hg1 : s.ratePerSecond * (now - s.startTime) = X at hmul
  generalize hg2 : s.ratePerSecond * (now + 1 - s.startTime) = Y at hmul
  split_ifs <;> omega

/-- Witness for C6: the scenario record at times 2000 and 2000 + 1. -/
theorem running_withdrawable_monotone_witness :
    (shapeStream scenarioRecord 2000).withdrawable ≤
      (shapeStream scenarioRecord (2000 + 1)).withdrawable :=
  running_withdrawable_monotone scenarioRecord 2000 (by decide) (by decide) (by decide)
    (by decide) (by decide) (by decide)

/-- C2 counterexample: the adopted projection performs no stop-time
normalization.  On the scenario-5 record (stopTime 0, rate 2, deposit 100,
start 500) the effective stop time it uses and returns is the raw 0, not
550: at now = 500 the zero stop time makes `now ≥ stopTime` hold, so the
record is classified Finished with progress 100 and withdrawable 100 instead
of just starting. -/
theorem stop_time_not_normalized_counterexample :
    (shapeStream invalidStopRecord 500).stopTime = 0 ∧
    (shapeStream invalidStopRecord 500).stopTime ≠ 550 ∧
    (shapeStream invalidStopRecord 500).progress = 100 ∧
    (shapeStream invalidStopRecord 500).withdrawable = 100 := by
  norm_num [shapeStream, invalidStopRecord, jsMin, jsMax]

/-- C2 amended: only the earlier revision normalizes the stop time, exactly
as claimed — an invalid `stopTime` (≤ `startTime` or 0) becomes
`startTime + deposit / ratePerSecond` (truncating division) for a nonzero
rate and `startTime + 3600` for a zero rate — and that normalized value is
the one used for and returned from all later computation. -/
theorem normalize_stop_time_copie (s : StreamRaw) (now c : Int) (dec : Nat)
    (h : s.stopTime ≤ s.startTime ∨ s.stopTime = 0) :
    (shapeStreamCopie s now c dec).stopTime =
      s.startTime +
        (if s.ratePerSecond = 0 then 3600 else Int.tdiv s.deposit s.ratePerSecond) := by
  simp only [shapeStreamCopie, normalizeStopTime, if_pos h]
  by_cases hr : s.ratePerSecond = 0
  · simp [hr]
  · simp [hr]

/-- Witness for C2 amended: the scenario-5 record, whose normalized stop time
is 500 + 100 / 2 = 550. -/
theorem normalize_stop_time_copie_witness :
    (shapeStreamCopie invalidStopRecord 500 0 18).stopTime =
      invalidStopRecord.startTime +
        (if invalidStopRecord.ratePerSecond = 0 then 3600
         else Int.tdiv invalidStopRecord.deposit invalidStopRecord.ratePerSecond) ∧
    (shapeStreamCopie invalidStopRecord 500 0 18).stopTime = 550 := by
  refine ⟨normalize_stop_time_copie invalidStopRecord 500 0 18 (by decide), ?_⟩
  rw [normalize_stop_time_copie invalidStopRecord 500 0 18 (by decide)]
  decide

/-- C8 counterexample: on a malformed record (negative deposit, reported
inactive) the adopted projection neither zeroes the view nor signals any
condition: the guard still hands the record to the normal arithmetic, which
returns progress 100 through the Finished branch. -/
theorem malformed_not_zeroed_counterexample :
    shapeStreamChecked negativeDepositRecord 0 =
      some (shapeStream negativeDepositRecord 0) ∧
    (shapeStream negativeDepositRecord 0).progress = 100 ∧
    (shapeStream negativeDepositRecord 0).progress ≠ 0 ∧
    (shapeStream negativeDepositRecord 0).withdrawable = 0 := by
  refine ⟨by norm_num [shapeStreamChecked, negativeDepositRecord], ?_⟩
  norm_num [shapeStream, negativeDepositRecord, jsMin, jsMax]

/-- C8 amended: the adopted projection is a total function — malformed
records included, it never throws and always returns a view whose progress is
clamped to [0, 100] and whose withdrawable amount is non-negative; but it
returns no zeroed view and has no `MalformedRecord` diagnostic channel. -/
theorem projection_total_clamped (s : StreamRaw) (now : Int) :
    0 ≤ (shapeStream s now).progress ∧ (shapeStream s now).progress ≤ 100 ∧
    0 ≤ (shapeStream s now).withdrawable := by
  simp only [shapeStream]
  exact ⟨(jsClampRange _).1, (jsClampRange _).2, intClampNonneg _⟩

/-- Witness for C8 amended: the malformed negative-deposit record at time
0. -/
theorem projection_total_clamped_witness :
    0 ≤ (shapeStream negativeDepositRecord 0).progress ∧
    (shapeStream negativeDepositRecord 0).progress ≤ 100 ∧
    0 ≤ (shapeStream negativeDepositRecord 0).withdrawable :=
  projection_total_clamped negativeDepositRecord 0

/-- C9: the two revisions are not extensionally equal.  On a record paused
beyond its stop time the adopted revision accrues over the uncapped
`pausedTime - startTime` (withdrawable 2000) while the earlier one caps the
active time at the total duration and then keeps the contract-reported
amount (withdrawable 1000); and on the plain running scenario record the
earlier revision's reconciliation returns the contract-reported 0 where the
adopted one calculates 1800 locally. -/
theorem revisions_diverge :
    (shapeStream pausedDivergeRecord 1500).withdrawable = 2000 ∧
    (shapeStreamCopie pausedDivergeRecord 1500 1000 18).withdrawable = 1000 ∧
    shapeStream pausedDivergeRecord 1500 ≠
      shapeStreamCopie pausedDivergeRecord 1500 1000 18 ∧
    (shapeStream scenarioRecord 2800).withdrawable = 1800 ∧
    (shapeStreamCopie scenarioRecord 2800 0 18).withdrawable = 0 ∧
    shapeStream scenarioRecord 2800 ≠ shapeStreamCopie scenarioRecord 2800 0 18 := by
  have h1 : (shapeStream pausedDivergeRecord 1500).withdrawable = 2000 := by
    norm_num [shapeStream, pausedDivergeRecord, jsMin, jsMax]
  have h2 : (shapeStreamCopie pausedDivergeRecord 1500 1000 18).withdrawable = 1000 := by
    norm_num [shapeStreamCopie, normalizeStopTime, pointZeroOneUnits,
      pausedDivergeRecord, jsMin, jsMax, jsMinInt]
  have h3 : (shapeStream scenarioRecord 2800).withdrawable = 1800 := by
    norm_num [shapeStream, scenarioRecord, jsMin, jsMax]
  have h4 : (shapeStreamCopie scenarioRecord 2800 0 18).withdrawable = 0 := by
    norm_num [shapeStreamCopie, normalizeStopTime, pointZeroOneUnits,
      scenarioRecord, jsMin, jsMax, jsMinInt]
  refine ⟨h1, h2, ?_, h3, h4, ?_⟩
  · intro h
    rw [h, h2] at h1
    exact absurd h1 (by decide)
  · intro h
    rw [h, h4] at h3
    exact absurd h3 (by decide)
